import Mathlib

/-!
Verification of the ALPHAdominico subscription backend (`src/main.py`).

The Python source is shallowly embedded: SQLite tables become lists of rows
(SQLite uses flexible typing, so stored values are modelled by the dynamic
scalar type `JVal`, with SQL NULL = Python `None` = `JVal.jnull`); each HTTP
handler becomes a pure function from the database state (plus the request and
the current timestamp string `now`) to the new database state and an
`Except`-style outcome; calls to the external Razorpay gateway are recorded in
an explicit call trace and their outcome is an input parameter; the HMAC-SHA256
hex digest computed by the `hmac`/`hashlib` standard library is an input
function parameter `hmacHex` (theorems that need it only assume its output is
an ASCII hex string, which is true of `hexdigest()`).
-/

namespace AlphaDominico

/-- JSON values as produced by `json.loads`.  Numbers are modelled as `Int`
(the payload fields the handlers read — `amount` in paise — are integers). -/
inductive JVal where
  | jnull
  | jbool (b : Bool)
  | jnum (n : Int)
  | jstr (s : String)
  | jarr (elems : List JVal)
  | jobj (fields : List (String × JVal))
deriving Repr

/-- First-match association lookup, as in a Python `dict` (JSON objects from
`json.loads` have unique keys). -/
def lookupField : List (String × JVal) → String → Option JVal
  | [], _ => none
  | (k, v) :: rest, key => if k == key then some v else lookupField rest key

/-- Python `d.get(key, default)`: returns `none` when the receiver is not a
dict (an `AttributeError` is raised in Python), otherwise the stored value or
the default. -/
def pyDictGet : JVal → String → JVal → Option JVal
  | JVal.jobj fs, key, dflt => some ((lookupField fs key).getD dflt)
  | _, _, _ => none

/-- Python truthiness (`if x:`) for JSON values. -/
def JVal.truthy : JVal → Bool
  | JVal.jnull => false
  | JVal.jbool b => b
  | JVal.jnum n => n != 0
  | JVal.jstr s => s != ""
  | JVal.jarr elems => !elems.isEmpty
  | JVal.jobj fields => !fields.isEmpty

/-- Python `x == "lit"` where `x` is a JSON value: equal only when `x` is that
string (comparison of a non-`str` JSON value with a `str` is `False`). -/
def JVal.eqStr : JVal → String → Bool
  | JVal.jstr s, t => s == t
  | _, _ => false

def JVal.isObj : JVal → Bool
  | JVal.jobj _ => true
  | _ => false

mutual

/-- `json.dumps` (default separators; string escaping is not needed for the
payloads reasoned about, none of which contain quotes or control
characters). -/
def JVal.dump : JVal → String
  | JVal.jnull => "null"
  | JVal.jbool b => cond b "true" "false"
  | JVal.jnum n => toString n
  | JVal.jstr s => "\"" ++ s ++ "\""
  | JVal.jarr elems => "[" ++ JVal.dumpList elems ++ "]"
  | JVal.jobj fields => "\x7b" ++ JVal.dumpFields fields ++ "\x7d"

def JVal.dumpList : List JVal → String
  | [] => ""
  | [v] => JVal.dump v
  | v :: rest => JVal.dump v ++ ", " ++ JVal.dumpList rest

def JVal.dumpFields : List (String × JVal) → String
  | [] => ""
  | [(k, v)] => "\"" ++ k ++ "\": " ++ JVal.dump v
  | (k, v) :: rest => "\"" ++ k ++ "\": " ++ JVal.dump v ++ ", " ++ JVal.dumpFields rest

end

/-- SQLite value comparison (`WHERE col = ?`, UNIQUE-index conflict): NULL
compares equal to nothing, values of different storage classes are unequal,
same-class scalars compare structurally.  The endpoints only ever compare
strings and integers here.  (Composite values cannot be bound as SQLite
parameters at all, so their comparison never arises on the modelled paths.) -/
def sqlEq : JVal → JVal → Bool
  | JVal.jnull, _ => false
  | _, JVal.jnull => false
  | JVal.jstr a, JVal.jstr b => a == b
  | JVal.jnum a, JVal.jnum b => a == b
  | JVal.jbool a, JVal.jbool b => a == b
  | _, _ => false

/-- A row of the `subscribers` table (`INIT_SQL`); the autoincrement `id`
column plays no role in any handler and is omitted. -/
structure Subscriber where
  email : JVal
  name : JVal
  phone : JVal
  plan_key : JVal
  status : JVal
  razorpay_customer_id : JVal
  razorpay_sub_id : JVal
  created_at : JVal
  trial_start_at : JVal
  activated_at : JVal
  cancelled_at : JVal
  cancel_at_period_end : JVal
  updated_at : JVal
deriving Repr

/-- A row of the `payment_log` table (`id` omitted as above). -/
structure PaymentRow where
  email : JVal
  phone : JVal
  plan_key : JVal
  razorpay_payment_id : JVal
  razorpay_sub_id : JVal
  razorpay_order_id : JVal
  amount_paise : JVal
  currency : JVal
  event_type : JVal
  status : JVal
  webhook_payload : JVal
  logged_at : JVal
deriving Repr

/-- A row of the `webhook_log` audit table.  `event` and `entity_id` come from
the dynamic payload; `payload` is the `json.dumps` text, `signature_ok` the
`int(sig_ok)` flag and `received_at` the `utcnow()` string. -/
structure WebhookRow where
  event : JVal
  entity_id : JVal
  payload : String
  signature_ok : Nat
  received_at : String
deriving Repr

/-- The three tables of the SQLite database, rows in insertion order. -/
structure DB where
  subscribers : List Subscriber
  payment_log : List PaymentRow
  webhook_log : List WebhookRow
deriving Repr

/-- Process configuration read from the environment at startup. -/
structure Config where
  key_id : String
  key_secret : String
  webhook_secret : String
  standard_plan_id : String
  pro_plan_id : String
deriving Repr

/-- `RAZORPAY_PLAN_IDS[k]`: the dict has exactly the keys `"standard"` and
`"pro"`; `none` models `k not in RAZORPAY_PLAN_IDS`. -/
def plan_id_for (cfg : Config) (k : String) : Option String :=
  if k == "standard" then some cfg.standard_plan_id
  else if k == "pro" then some cfg.pro_plan_id
  else none

/-- The keyword arguments of `upsert_subscriber`, with the Python defaults.
Python `None` is `JVal.jnull`; a field is written iff its value is not
`None`, exactly the `if val is not None` test in the source. -/
structure UpsertFields where
  name : JVal := JVal.jnull
  phone : JVal := JVal.jnull
  plan_key : JVal := JVal.jstr "standard"
  status : JVal := JVal.jstr "trial"
  razorpay_customer_id : JVal := JVal.jnull
  razorpay_sub_id : JVal := JVal.jnull
  trial_start_at : JVal := JVal.jnull
  activated_at : JVal := JVal.jnull
  cancelled_at : JVal := JVal.jnull
  cancel_at_period_end : JVal := JVal.jnum 0

/-- `if val is not None: write val` for one column of the UPDATE branch. -/
def keepIfNull (newVal oldVal : JVal) : JVal :=
  match newVal with
  | JVal.jnull => oldVal
  | v => v

/-- `val is None`. -/
def JVal.isNull : JVal → Bool
  | JVal.jnull => true
  | _ => false

/-- `if fields:` — the UPDATE is issued only when at least one value is not
`None` (every call site passes a non-`None` `status`, but the test is part of
the function). -/
def anyFieldSet (f : UpsertFields) : Bool :=
  !f.name.isNull || !f.phone.isNull || !f.plan_key.isNull || !f.status.isNull ||
  !f.razorpay_customer_id.isNull || !f.razorpay_sub_id.isNull ||
  !f.trial_start_at.isNull || !f.activated_at.isNull || !f.cancelled_at.isNull ||
  !f.cancel_at_period_end.isNull

/-- The UPDATE branch of `upsert_subscriber` applied to one matching row:
non-`None` fields are written, `updated_at` is refreshed. -/
def updateRow (f : UpsertFields) (now : String) (s : Subscriber) : Subscriber :=
  { s with
    name := keepIfNull f.name s.name
    phone := keepIfNull f.phone s.phone
    plan_key := keepIfNull f.plan_key s.plan_key
    status := keepIfNull f.status s.status
    razorpay_customer_id := keepIfNull f.razorpay_customer_id s.razorpay_customer_id
    razorpay_sub_id := keepIfNull f.razorpay_sub_id s.razorpay_sub_id
    trial_start_at := keepIfNull f.trial_start_at s.trial_start_at
    activated_at := keepIfNull f.activated_at s.activated_at
    cancelled_at := keepIfNull f.cancelled_at s.cancelled_at
    cancel_at_period_end := keepIfNull f.cancel_at_period_end s.cancel_at_period_end
    updated_at := JVal.jstr now }

/-- The INSERT branch of `upsert_subscriber`: a fresh row with
`created_at = updated_at = now`. -/
def insertedRow (now : String) (email : JVal) (f : UpsertFields) : Subscriber :=
  { email := email
    name := f.name
    phone := f.phone
    plan_key := f.plan_key
    status := f.status
    razorpay_customer_id := f.razorpay_customer_id
    razorpay_sub_id := f.razorpay_sub_id
    created_at := JVal.jstr now
    trial_start_at := f.trial_start_at
    activated_at := f.activated_at
    cancelled_at := f.cancelled_at
    cancel_at_period_end := f.cancel_at_period_end
    updated_at := JVal.jstr now }

/-- `upsert_subscriber`: UPDATE the row(s) whose `email` matches, or INSERT a
fresh row.  (The `email` column is UNIQUE, so at most one row ever matches;
the model, like `UPDATE ... WHERE email = ?`, updates all matches.) -/
def upsert_subscriber (db : DB) (now : String) (email : JVal) (f : UpsertFields) : DB :=
  if db.subscribers.any (fun s => sqlEq s.email email) then
    if anyFieldSet f then
      { db with subscribers :=
          db.subscribers.map (fun s => if sqlEq s.email email then updateRow f now s else s) }
    else db
  else
    { db with subscribers := db.subscribers ++ [insertedRow now email f] }

/-- The keyword arguments of `log_payment`, with the Python defaults. -/
structure PaymentArgs where
  email : JVal
  phone : JVal := JVal.jnull
  plan_key : JVal
  payment_id : JVal
  sub_id : JVal := JVal.jnull
  order_id : JVal := JVal.jnull
  amount_paise : JVal := JVal.jnull
  event_type : JVal := JVal.jstr "payment.captured"
  status : JVal := JVal.jstr "captured"
  webhook_payload : JVal := JVal.jnull

/-- The row `log_payment` inserts.  The omitted `currency` column takes its
SQL default `'INR'`. -/
def paymentRowOf (a : PaymentArgs) (now : String) : PaymentRow :=
  { email := a.email
    phone := a.phone
    plan_key := a.plan_key
    razorpay_payment_id := a.payment_id
    razorpay_sub_id := a.sub_id
    razorpay_order_id := a.order_id
    amount_paise := a.amount_paise
    currency := JVal.jstr "INR"
    event_type := a.event_type
    status := a.status
    webhook_payload := a.webhook_payload
    logged_at := JVal.jstr now }

/-- `log_payment`: `INSERT OR IGNORE` into `payment_log` — a no-op when a row
with the same (UNIQUE) `razorpay_payment_id` already exists. -/
def log_payment (db : DB) (now : String) (a : PaymentArgs) : DB :=
  if db.payment_log.any (fun r => sqlEq r.razorpay_payment_id a.payment_id) then db
  else { db with payment_log := db.payment_log ++ [paymentRowOf a now] }

/-! ### Signature verifier (`verify_razorpay_signature`, `verify_webhook_signature`)

`hmac.new(key, msg, hashlib.sha256).hexdigest()` is the standard library; it
is modelled by an input function `hmacHex : String → List Nat → String`
(secret, message bytes ↦ hex digest).  `hmac.compare_digest` on two `str`
arguments requires both to be ASCII-only and raises `TypeError` otherwise
(CPython behaviour); exceptions are `Except.error`. -/

/-- Whether every character of a Python `str` is ASCII. -/
def asciiOnly (s : String) : Bool := s.data.all (fun c => c.val < 128)

/-- `hmac.compare_digest(a, b)` for `str` arguments: constant-time equality,
but a `TypeError` when either string has a non-ASCII character. -/
def compare_digest (a b : String) : Except String Bool :=
  if asciiOnly a && asciiOnly b then Except.ok (a == b)
  else Except.error "TypeError: comparing strings with non-ASCII characters is not supported"

/-- `s.encode()` — the UTF-8 bytes of a Python `str`. -/
def strBytes (s : String) : List Nat := s.toUTF8.toList.map (fun b => b.toNat)

/-- `verify_razorpay_signature(payment_id, subscription_id, signature)`:
HMAC-SHA256 over `f"{payment_id}|{subscription_id}"` keyed by
`RAZORPAY_KEY_SECRET`, compared with `compare_digest`. -/
def verify_razorpay_signature (hmacHex : String → List Nat → String) (cfg : Config)
    (payment_id subscription_id signature : String) : Except String Bool :=
  compare_digest (hmacHex cfg.key_secret (strBytes (payment_id ++ "|" ++ subscription_id)))
    signature

/-- `verify_webhook_signature(body, signature)`: HMAC-SHA256 over the raw body
bytes keyed by `RAZORPAY_WEBHOOK_SECRET`, compared with `compare_digest`. -/
def verify_webhook_signature (hmacHex : String → List Nat → String) (cfg : Config)
    (body : List Nat) (signature : String) : Except String Bool :=
  compare_digest (hmacHex cfg.webhook_secret body) signature

/-! ### HTTP handler outcomes -/

/-- How a request ends when it does not return normally: a raised
`HTTPException(code, detail)`, or an uncaught Python exception (which FastAPI
turns into a 500). -/
inductive HandlerError where
  | http (code : Nat) (detail : String)
  | pyError (msg : String)
deriving Repr, DecidableEq

/-- A call made to the external Razorpay gateway, recorded in order. -/
inductive GatewayCall where
  | createSub (plan_id : String)
  | cancelAtCycleEnd (sub_id : JVal)
deriving Repr

/-- Outcome of `rz_client.subscription.create` if it is called: the upstream
subscription id, a `razorpay.errors.BadRequestError`, or any other
exception. -/
inductive GwCreateResult where
  | ok (sub_id : String)
  | badRequest (msg : String)
  | err (msg : String)
deriving Repr

/-! ### `POST /api/create-subscription` -/

structure CreateSubscriptionRequest where
  email : String
  name : String
  phone : String
  plan_key : String
  plan_id : String
deriving Repr

/-- `str.lower()`.  (Python's lowering maps the ASCII uppercase range exactly
like this map; for the non-ASCII code points where the two diverge, neither
result is ever a member of the plan allow-list `\x7b"standard", "pro"\x7d`,
so the divergence is invisible to `create_subscription`.) -/
def pyLower (s : String) : String := String.mk (s.data.map Char.toLower)

/-- `create_subscription`: lowercase the client `plan_key`, validate it
against the server-side plan map (the client `plan_id` is ignored), require a
configured upstream plan id, then call the gateway and pre-register the
subscriber as `trial`.  Returns the new database, the gateway call trace and
the outcome (`(subscription_id, key_id)` on success). -/
def create_subscription (cfg : Config) (gw : GwCreateResult) (db : DB) (now : String)
    (req : CreateSubscriptionRequest) :
    DB × List GatewayCall × Except HandlerError (String × String) :=
  let plan_key := pyLower req.plan_key
  match plan_id_for cfg plan_key with
  | none => (db, [], Except.error (HandlerError.http 400 "Invalid plan"))
  | some server_plan_id =>
    if server_plan_id == "" then
      (db, [], Except.error (HandlerError.http 503 "Plan not configured"))
    else
      match gw with
      | GwCreateResult.ok sub_id =>
        let db1 := upsert_subscriber db now (JVal.jstr req.email)
          { name := JVal.jstr req.name
            phone := JVal.jstr req.phone
            plan_key := JVal.jstr plan_key
            status := JVal.jstr "trial"
            razorpay_sub_id := JVal.jstr sub_id
            trial_start_at := JVal.jstr now }
        (db1, [GatewayCall.createSub server_plan_id], Except.ok (sub_id, cfg.key_id))
      | GwCreateResult.badRequest msg =>
        (db, [GatewayCall.createSub server_plan_id], Except.error (HandlerError.http 400 msg))
      | GwCreateResult.err _ =>
        (db, [GatewayCall.createSub server_plan_id],
          Except.error (HandlerError.http 500 "Internal error"))

/-! ### `POST /api/payment-success` -/

structure PaymentSuccessRequest where
  razorpay_payment_id : String
  razorpay_subscription_id : String
  razorpay_signature : String
  email : String
  name : String
  phone : String
  plan_key : String
deriving Repr

/-- `payment_success`: verify the payment signature; on mismatch raise
HTTP 400 with no mutation; on success upsert the subscriber to `active`
(with `activated_at = now`) and append a `manual_success` payment row, both
in one transaction. -/
def payment_success (hmacHex : String → List Nat → String) (cfg : Config)
    (db : DB) (now : String) (req : PaymentSuccessRequest) :
    DB × Except HandlerError String :=
  match verify_razorpay_signature hmacHex cfg req.razorpay_payment_id
      req.razorpay_subscription_id req.razorpay_signature with
  | Except.error e => (db, Except.error (HandlerError.pyError e))
  | Except.ok false => (db, Except.error (HandlerError.http 400 "Invalid payment signature"))
  | Except.ok true =>
    let db1 := upsert_subscriber db now (JVal.jstr req.email)
      { name := JVal.jstr req.name
        phone := JVal.jstr req.phone
        plan_key := JVal.jstr req.plan_key
        status := JVal.jstr "active"
        razorpay_sub_id := JVal.jstr req.razorpay_subscription_id
        activated_at := JVal.jstr now }
    let db2 := log_payment db1 now
      { email := JVal.jstr req.email
        phone := JVal.jstr req.phone
        plan_key := JVal.jstr req.plan_key
        payment_id := JVal.jstr req.razorpay_payment_id
        sub_id := JVal.jstr req.razorpay_subscription_id
        event_type := JVal.jstr "manual_success"
        status := JVal.jstr "captured" }
    (db2, Except.ok "ok")

/-! ### `POST /api/webhook/razorpay` -/

/-- The raw request body together with its `json.loads` result: `invalid`
when parsing raises (the handler then responds HTTP 400), `valid` with the
parsed value otherwise.  The signature is always computed over the raw
bytes. -/
inductive RawBody where
  | invalid (bytesOf : List Nat)
  | valid (bytesOf : List Nat) (payload : JVal)
deriving Repr

def RawBody.bytes : RawBody → List Nat
  | RawBody.invalid bs => bs
  | RawBody.valid bs _ => bs

/-- `entity.get(key, \x7b\x7d).get("entity", \x7b\x7d)` — the nested access
used by every event branch; `none` models an `AttributeError` from calling
`.get` on a non-dict. -/
def getEntity (entity : JVal) (key : String) : Option JVal :=
  match pyDictGet entity key (JVal.jobj []) with
  | none => none
  | some inner => pyDictGet inner "entity" (JVal.jobj [])

/-- One iteration of the `_extract_entity_id` loop for one key:
`none` = exception inside the chain (caught by the surrounding `try`),
`some none` = no truthy id (loop continues), `some (some v)` = found. -/
def entityIdAt (payload : JVal) (key : String) : Option (Option JVal) :=
  match pyDictGet payload "payload" (JVal.jobj []) with
  | none => none
  | some level1 =>
    match pyDictGet level1 key (JVal.jobj []) with
    | none => none
    | some level2 =>
      match pyDictGet level2 "entity" (JVal.jobj []) with
      | none => none
      | some entity =>
        match pyDictGet entity "id" JVal.jnull with
        | none => none
        | some idVal => if idVal.truthy then some (some idVal) else some none

/-- `_extract_entity_id`: scan `subscription`, `payment`, `order` in order for
the first truthy `payload.<key>.entity.id`; any exception aborts the scan;
fall back to the empty string. -/
def extract_entity_id (payload : JVal) : JVal :=
  match entityIdAt payload "subscription" with
  | none => JVal.jstr ""
  | some (some v) => v
  | some none =>
    match entityIdAt payload "payment" with
    | none => JVal.jstr ""
    | some (some v) => v
    | some none =>
      match entityIdAt payload "order" with
      | none => JVal.jstr ""
      | some (some v) => v
      | some none => JVal.jstr ""

/-- The audit row `razorpay_webhook` inserts for a parsed JSON-object body:
`payload.get("event", "")`, the extracted entity id, the `json.dumps` text,
`int(sig_ok)` and the receive time. -/
def webhookRowFor (payload : JVal) (sig_ok : Bool) (now : String) : WebhookRow :=
  { event := (pyDictGet payload "event" (JVal.jstr "")).getD (JVal.jstr "")
    entity_id := extract_entity_id payload
    payload := JVal.dump payload
    signature_ok := if sig_ok then 1 else 0
    received_at := now }

/-- The `subscription.activated` branch.  `none` models an uncaught
`AttributeError` while navigating the payload (the audit row is already
committed by then). -/
def handleActivated (entity : JVal) (db : DB) (now : String) : Option DB :=
  match getEntity entity "subscription" with
  | none => none
  | some sub_data =>
    match pyDictGet sub_data "id" (JVal.jstr ""), pyDictGet sub_data "notes" (JVal.jobj []) with
    | some sub_id, some notes =>
      match pyDictGet notes "email" (JVal.jstr ""),
          pyDictGet notes "plan_key" (JVal.jstr "standard") with
      | some email, some plan_key =>
        some (if email.truthy then
          upsert_subscriber db now email
            { plan_key := plan_key
              status := JVal.jstr "active"
              razorpay_sub_id := sub_id
              activated_at := JVal.jstr now }
        else db)
      | _, _ => none
    | _, _ => none

/-- The `subscription.charged` branch: upsert to `active` and append a
payment row (idempotent on `razorpay_payment_id`), guarded by
`if email and payment_id`. -/
def handleCharged (entity : JVal) (payload_str : String) (db : DB) (now : String) : Option DB :=
  match getEntity entity "payment", getEntity entity "subscription" with
  | some payment_data, some sub_data =>
    match pyDictGet payment_data "id" (JVal.jstr ""), pyDictGet sub_data "id" (JVal.jstr ""),
        pyDictGet payment_data "amount" (JVal.jnum 0),
        pyDictGet sub_data "notes" (JVal.jobj []) with
    | some payment_id, some sub_id, some amount, some notes =>
      match pyDictGet notes "email" (JVal.jstr ""),
          pyDictGet notes "plan_key" (JVal.jstr "standard"),
          pyDictGet payment_data "contact" (JVal.jstr "") with
      | some email, some plan_key, some contact =>
        some (if email.truthy && payment_id.truthy then
          let db1 := upsert_subscriber db now email
            { plan_key := plan_key
              status := JVal.jstr "active"
              razorpay_sub_id := sub_id }
          log_payment db1 now
            { email := email
              phone := contact
              plan_key := plan_key
              payment_id := payment_id
              sub_id := sub_id
              amount_paise := amount
              event_type := JVal.jstr "subscription.charged"
              status := JVal.jstr "captured"
              webhook_payload := JVal.jstr payload_str }
        else db)
      | _, _, _ => none
    | _, _, _, _ => none
  | _, _ => none

/-- The `subscription.cancelled` branch: status `cancelled`, `cancelled_at`
set.  (The Python defaults also rewrite `plan_key` to `"standard"` and
`cancel_at_period_end` to 0, faithfully carried by `UpsertFields`.) -/
def handleCancelled (entity : JVal) (db : DB) (now : String) : Option DB :=
  match getEntity entity "subscription" with
  | none => none
  | some sub_data =>
    match pyDictGet sub_data "id" (JVal.jstr ""), pyDictGet sub_data "notes" (JVal.jobj []) with
    | some sub_id, some notes =>
      match pyDictGet notes "email" (JVal.jstr "") with
      | some email =>
        some (if email.truthy then
          upsert_subscriber db now email
            { status := JVal.jstr "cancelled"
              razorpay_sub_id := sub_id
              cancelled_at := JVal.jstr now }
        else db)
      | none => none
    | _, _ => none

/-- The `subscription.completed` branch: status `expired`. -/
def handleCompleted (entity : JVal) (db : DB) (now : String) : Option DB :=
  match getEntity entity "subscription" with
  | none => none
  | some sub_data =>
    match pyDictGet sub_data "id" (JVal.jstr ""), pyDictGet sub_data "notes" (JVal.jobj []) with
    | some sub_id, some notes =>
      match pyDictGet notes "email" (JVal.jstr "") with
      | some email =>
        some (if email.truthy then
          upsert_subscriber db now email
            { status := JVal.jstr "expired"
              razorpay_sub_id := sub_id }
        else db)
      | none => none
    | _, _ => none

/-- The `payment.failed` branch: status `payment_failed` and a `failed`
payment row, with the `payment_id or f"fail_..."` fallback. -/
def handlePaymentFailed (entity : JVal) (payload_str : String) (db : DB) (now : String) :
    Option DB :=
  match getEntity entity "payment" with
  | none => none
  | some payment_data =>
    match pyDictGet payment_data "subscription_id" (JVal.jstr ""),
        pyDictGet payment_data "email" (JVal.jstr ""),
        pyDictGet payment_data "id" (JVal.jstr "") with
    | some sub_id, some email, some payment_id =>
      some (if email.truthy then
        let db1 := upsert_subscriber db now email { status := JVal.jstr "payment_failed" }
        log_payment db1 now
          { email := email
            phone := JVal.jnull
            plan_key := JVal.jstr "unknown"
            payment_id := if payment_id.truthy then payment_id
                          else JVal.jstr ("fail_" ++ now)
            sub_id := sub_id
            event_type := JVal.jstr "payment.failed"
            status := JVal.jstr "failed"
            webhook_payload := JVal.jstr payload_str }
      else db)
    | _, _, _ => none

/-- `razorpay_webhook`: verify the signature over the raw bytes (this can
itself raise `TypeError` on a non-ASCII header), parse the JSON (400 on
failure), read `event` and `payload` (`AttributeError` if the document is not
an object), append the audit row in its own committed transaction, return
`signature_invalid` without further processing when the signature failed,
otherwise dispatch on the event name.  The returned `DB` is the committed
state, also when a later exception escapes. -/
def razorpay_webhook (hmacHex : String → List Nat → String) (cfg : Config)
    (db : DB) (now : String) (body : RawBody) (signature : String) :
    DB × Except HandlerError String :=
  match verify_webhook_signature hmacHex cfg body.bytes signature with
  | Except.error e => (db, Except.error (HandlerError.pyError e))
  | Except.ok sig_ok =>
    match body with
    | RawBody.invalid _ => (db, Except.error (HandlerError.http 400 "Invalid payload"))
    | RawBody.valid _ payload =>
      match pyDictGet payload "event" (JVal.jstr ""), pyDictGet payload "payload" (JVal.jobj []) with
      | some event, some entity =>
        let payload_str := JVal.dump payload
        let wrow : WebhookRow :=
          { event := event
            entity_id := extract_entity_id payload
            payload := payload_str
            signature_ok := if sig_ok then 1 else 0
            received_at := now }
        let db1 : DB := { db with webhook_log := db.webhook_log ++ [wrow] }
        if !sig_ok then (db1, Except.ok "signature_invalid")
        else
          let dispatched : Option DB :=
            if event.eqStr "subscription.activated" then handleActivated entity db1 now
            else if event.eqStr "subscription.charged" then
              handleCharged entity payload_str db1 now
            else if event.eqStr "subscription.cancelled" then handleCancelled entity db1 now
            else if event.eqStr "subscription.completed" then handleCompleted entity db1 now
            else if event.eqStr "payment.failed" then
              handlePaymentFailed entity payload_str db1 now
            else some db1
          match dispatched with
          | some db2 => (db2, Except.ok "processed")
          | none => (db1, Except.error (HandlerError.pyError "AttributeError"))
      | _, _ => (db, Except.error (HandlerError.pyError "AttributeError"))

/-! ### `POST /api/cancel-subscription` and `GET /api/subscription-status` -/

/-- `SELECT ... FROM subscribers WHERE email = ?` with `fetchone()`. -/
def findSub (db : DB) (email : JVal) : Option Subscriber :=
  db.subscribers.find? (fun s => sqlEq s.email email)

/-- `cancel_subscription`: 404 when the email is unknown; idempotent
`already_cancelled` for terminal statuses; otherwise call the gateway's
cancel-at-cycle-end (only when a truthy `razorpay_sub_id` is stored — 500 and
no local mutation when that call raises) and locally set
`cancel_at_period_end=1, status="active"`.  `gwCancel` is the outcome the
gateway would produce if called; the trace records whether it was called. -/
def cancel_subscription (gwCancel : Except String Unit) (db : DB) (now : String)
    (email : String) : DB × List GatewayCall × Except HandlerError String :=
  match findSub db (JVal.jstr email) with
  | none => (db, [], Except.error (HandlerError.http 404 "Subscriber not found"))
  | some row =>
    if row.status.eqStr "cancelled" || row.status.eqStr "expired" then
      (db, [], Except.ok "already_cancelled")
    else
      if row.razorpay_sub_id.truthy then
        match gwCancel with
        | Except.error e =>
          (db, [GatewayCall.cancelAtCycleEnd row.razorpay_sub_id],
            Except.error (HandlerError.http 500 ("Razorpay error: " ++ e)))
        | Except.ok _ =>
          (upsert_subscriber db now (JVal.jstr email)
              { cancel_at_period_end := JVal.jnum 1, status := JVal.jstr "active" },
            [GatewayCall.cancelAtCycleEnd row.razorpay_sub_id], Except.ok "cancel_scheduled")
      else
        (upsert_subscriber db now (JVal.jstr email)
            { cancel_at_period_end := JVal.jnum 1, status := JVal.jstr "active" },
          [], Except.ok "cancel_scheduled")

/-- The response of `subscription_status`: either the literal
`\x7b"status": "not_found", "active": false\x7d` body or the full snapshot
with the derived `active` boolean. -/
inductive StatusResp where
  | notFound
  | snapshot (email name plan_key status : JVal) (active : Bool)
      (razorpay_sub_id trial_start_at activated_at cancelled_at : JVal)
      (cancel_at_period_end : Bool) (updated_at : JVal)
deriving Repr

/-- `subscription_status`: 400 for an empty email, `notFound` for an unknown
one, otherwise the stored snapshot with
`active = status in ("trial", "active")` and
`bool(cancel_at_period_end)`.  The handler only reads the database (its type
returns no new `DB`), matching the SELECT-only source. -/
def subscription_status (db : DB) (email : String) : Except HandlerError StatusResp :=
  if email == "" then Except.error (HandlerError.http 400 "email required")
  else
    match findSub db (JVal.jstr email) with
    | none => Except.ok StatusResp.notFound
    | some row =>
      Except.ok (StatusResp.snapshot row.email row.name row.plan_key row.status
        (row.status.eqStr "trial" || row.status.eqStr "active")
        row.razorpay_sub_id row.trial_start_at row.activated_at row.cancelled_at
        row.cancel_at_period_end.truthy row.updated_at)

/-! ### Derived observations used by the theorems -/

/-- The `status` column of the subscriber row for `e`, if any. -/
def statusOf (db : DB) (e : String) : Option JVal :=
  (findSub db (JVal.jstr e)).map (fun s => s.status)

/-- The `activated_at` column of the subscriber row for `e`, if any. -/
def activatedAtOf (db : DB) (e : String) : Option JVal :=
  (findSub db (JVal.jstr e)).map (fun s => s.activated_at)

/-- The `plan_key` column of the subscriber row for `e`, if any. -/
def planKeyOf (db : DB) (e : String) : Option JVal :=
  (findSub db (JVal.jstr e)).map (fun s => s.plan_key)

/-- The `cancel_at_period_end` column of the subscriber row for `e`, if any. -/
def capeOf (db : DB) (e : String) : Option JVal :=
  (findSub db (JVal.jstr e)).map (fun s => s.cancel_at_period_end)

/-- Number of `payment_log` rows whose `razorpay_payment_id` equals `pid`. -/
def paymentCount (db : DB) (pid : String) : Nat :=
  (db.payment_log.filter (fun r => sqlEq r.razorpay_payment_id (JVal.jstr pid))).length

/-- A `subscription.charged` webhook document with the fields the handler
reads: payment id, amount and contact under `payload.payment.entity`,
subscription id and the `notes` (email, plan_key) under
`payload.subscription.entity`. -/
def chargedPayload (email pid sid pk contact : String) (amt : Int) : JVal :=
  JVal.jobj [("event", JVal.jstr "subscription.charged"),
    ("payload", JVal.jobj [
      ("payment", JVal.jobj [("entity", JVal.jobj [
        ("id", JVal.jstr pid),
        ("amount", JVal.jnum amt),
        ("contact", JVal.jstr contact)])]),
      ("subscription", JVal.jobj [("entity", JVal.jobj [
        ("id", JVal.jstr sid),
        ("notes", JVal.jobj [("email", JVal.jstr email),
                            ("plan_key", JVal.jstr pk)])])])])]

/-- A `subscription.activated` webhook document with the fields the handler
reads. -/
def activatedPayload (email sid pk : String) : JVal :=
  JVal.jobj [("event", JVal.jstr "subscription.activated"),
    ("payload", JVal.jobj [
      ("subscription", JVal.jobj [("entity", JVal.jobj [
        ("id", JVal.jstr sid),
        ("notes", JVal.jobj [("email", JVal.jstr email),
                            ("plan_key", JVal.jstr pk)])])])])]

/-- `n` consecutive deliveries of the same body and signature header, the
`k`-th delivery processed at server time `times k`. -/
def deliverN (hmacHex : String → List Nat → String) (cfg : Config) (body : RawBody)
    (signature : String) (times : Nat → String) (db : DB) : Nat → DB
  | 0 => db
  | n + 1 =>
    (razorpay_webhook hmacHex cfg (deliverN hmacHex cfg body signature times db n)
      (times n) body signature).1

/-! ### Lemmas about the database operations -/

theorem keepIfNull_ne (v old : JVal) (h : v ≠ JVal.jnull) : keepIfNull v old = v := by
  cases v
  case jnull => exact absurd rfl h
  all_goals rfl

theorem isNull_false (v : JVal) (h : v ≠ JVal.jnull) : v.isNull = false := by
  cases v
  case jnull => exact absurd rfl h
  all_goals rfl

theorem anyFieldSet_of_status (f : UpsertFields) (h : f.status ≠ JVal.jnull) :
    anyFieldSet f = true := by
  unfold anyFieldSet
  rw [isNull_false f.status h]
  simp

theorem any_eq_isSome_find? {α : Type} (l : List α) (p : α → Bool) :
    l.any p = (l.find? p).isSome := by
  induction l with
  | nil => rfl
  | cons a t ih => cases hpa : p a <;> simp [List.any_cons, List.find?_cons, hpa, ih]

theorem find?_update_list (l : List Subscriber) (email : JVal) (f : UpsertFields)
    (now : String) :
    (l.map (fun s => if sqlEq s.email email then updateRow f now s else s)).find?
        (fun s => sqlEq s.email email)
      = (l.find? (fun s => sqlEq s.email email)).map (updateRow f now) := by
  induction l with
  | nil => rfl
  | cons s t ih =>
    cases hs : sqlEq s.email email with
    | true =>
      have hu : sqlEq (updateRow f now s).email email = true := hs
      simp [List.find?_cons, hs, hu]
    | false =>
      simp [List.find?_cons, hs, ih]

theorem find?_append_one {α : Type} (l : List α) (p : α → Bool) (a : α)
    (hl : l.find? p = none) (ha : p a = true) : (l ++ [a]).find? p = some a := by
  induction l with
  | nil => simp [List.find?_cons, ha]
  | cons s t ih =>
    cases hps : p s with
    | true => rw [List.find?_cons_of_pos _ hps] at hl; cases hl
    | false =>
      rw [List.find?_cons_of_neg _ (by simp [hps])] at hl
      rw [List.cons_append, List.find?_cons_of_neg _ (by simp [hps])]
      exact ih hl

theorem findSub_upsert_found (db : DB) (now : String) (email : JVal) (f : UpsertFields)
    (t : Subscriber) (ht : findSub db email = some t) :
    findSub (upsert_subscriber db now email f) email
      = some (if anyFieldSet f then updateRow f now t else t) := by
  unfold upsert_subscriber
  have hany : db.subscribers.any (fun s => sqlEq s.email email) = true := by
    rw [any_eq_isSome_find?]
    unfold findSub at ht
    rw [ht]
    rfl
  rw [if_pos hany]
  by_cases haf : anyFieldSet f = true
  · rw [if_pos haf, if_pos haf]
    unfold findSub at ht ⊢
    rw [find?_update_list, ht]
    rfl
  · rw [if_neg haf, if_neg haf]
    exact ht

theorem findSub_upsert_notfound (db : DB) (now : String) (e : String) (f : UpsertFields)
    (hn : findSub db (JVal.jstr e) = none) :
    findSub (upsert_subscriber db now (JVal.jstr e) f) (JVal.jstr e)
      = some (insertedRow now (JVal.jstr e) f) := by
  unfold upsert_subscriber
  have hany : db.subscribers.any (fun s => sqlEq s.email (JVal.jstr e)) = false := by
    rw [any_eq_isSome_find?]
    unfold findSub at hn
    rw [hn]
    rfl
  rw [if_neg (by simp [hany])]
  unfold findSub
  apply find?_append_one
  · exact hn
  · show sqlEq (insertedRow now (JVal.jstr e) f).email (JVal.jstr e) = true
    simp [insertedRow, sqlEq]

theorem upsert_payment_log (db : DB) (now : String) (email : JVal) (f : UpsertFields) :
    (upsert_subscriber db now email f).payment_log = db.payment_log := by
  unfold upsert_subscriber
  split
  · split
    · rfl
    · rfl
  · rfl

theorem upsert_webhook_log (db : DB) (now : String) (email : JVal) (f : UpsertFields) :
    (upsert_subscriber db now email f).webhook_log = db.webhook_log := by
  unfold upsert_subscriber
  split
  · split
    · rfl
    · rfl
  · rfl

theorem log_payment_subscribers (db : DB) (now : String) (a : PaymentArgs) :
    (log_payment db now a).subscribers = db.subscribers := by
  unfold log_payment
  split
  · rfl
  · rfl

theorem log_payment_webhook_log (db : DB) (now : String) (a : PaymentArgs) :
    (log_payment db now a).webhook_log = db.webhook_log := by
  unfold log_payment
  split
  · rfl
  · rfl

theorem statusOf_upsert (db : DB) (now : String) (e : String) (f : UpsertFields)
    (hst : f.status ≠ JVal.jnull) :
    statusOf (upsert_subscriber db now (JVal.jstr e) f) e = some f.status := by
  unfold statusOf
  cases ht : findSub db (JVal.jstr e) with
  | none =>
    rw [findSub_upsert_notfound db now e f ht]
    simp [insertedRow]
  | some t =>
    rw [findSub_upsert_found db now (JVal.jstr e) f t ht,
      if_pos (anyFieldSet_of_status f hst)]
    simp [updateRow, keepIfNull_ne _ _ hst]

theorem activatedAtOf_upsert (db : DB) (now : String) (e : String) (f : UpsertFields)
    (hst : f.status ≠ JVal.jnull) (hact : f.activated_at ≠ JVal.jnull) :
    activatedAtOf (upsert_subscriber db now (JVal.jstr e) f) e = some f.activated_at := by
  unfold activatedAtOf
  cases ht : findSub db (JVal.jstr e) with
  | none =>
    rw [findSub_upsert_notfound db now e f ht]
    simp [insertedRow]
  | some t =>
    rw [findSub_upsert_found db now (JVal.jstr e) f t ht,
      if_pos (anyFieldSet_of_status f hst)]
    simp [updateRow, keepIfNull_ne _ _ hact]

theorem planKeyOf_upsert (db : DB) (now : String) (e : String) (f : UpsertFields)
    (hst : f.status ≠ JVal.jnull) (hpk : f.plan_key ≠ JVal.jnull) :
    planKeyOf (upsert_subscriber db now (JVal.jstr e) f) e = some f.plan_key := by
  unfold planKeyOf
  cases ht : findSub db (JVal.jstr e) with
  | none =>
    rw [findSub_upsert_notfound db now e f ht]
    simp [insertedRow]
  | some t =>
    rw [findSub_upsert_found db now (JVal.jstr e) f t ht,
      if_pos (anyFieldSet_of_status f hst)]
    simp [updateRow, keepIfNull_ne _ _ hpk]

theorem capeOf_upsert (db : DB) (now : String) (e : String) (f : UpsertFields)
    (hst : f.status ≠ JVal.jnull) (hcp : f.cancel_at_period_end ≠ JVal.jnull) :
    capeOf (upsert_subscriber db now (JVal.jstr e) f) e = some f.cancel_at_period_end := by
  unfold capeOf
  cases ht : findSub db (JVal.jstr e) with
  | none =>
    rw [findSub_upsert_notfound db now e f ht]
    simp [insertedRow]
  | some t =>
    rw [findSub_upsert_found db now (JVal.jstr e) f t ht,
      if_pos (anyFieldSet_of_status f hst)]
    simp [updateRow, keepIfNull_ne _ _ hcp]

theorem statusOf_eq_of_subscribers_eq (db db' : DB) (e : String)
    (h : db'.subscribers = db.subscribers) : statusOf db' e = statusOf db e := by
  unfold statusOf findSub
  rw [h]

theorem planKeyOf_eq_of_subscribers_eq (db db' : DB) (e : String)
    (h : db'.subscribers = db.subscribers) : planKeyOf db' e = planKeyOf db e := by
  unfold planKeyOf findSub
  rw [h]

/-- `payment_log.any` for a payment id with no row is `false`. -/
theorem any_pid_false_of_count_zero (db : DB) (pid : String)
    (h0 : paymentCount db pid = 0) :
    db.payment_log.any (fun r => sqlEq r.razorpay_payment_id (JVal.jstr pid)) = false := by
  have hnil : db.payment_log.filter (fun r => sqlEq r.razorpay_payment_id (JVal.jstr pid))
      = [] := List.length_eq_zero.mp h0
  rw [Bool.eq_false_iff]
  intro hT
  obtain ⟨r, hr, hpr⟩ := List.any_eq_true.mp hT
  exact (List.filter_eq_nil_iff.mp hnil) r hr hpr

/-- When no row with the payment id exists, `log_payment` appends exactly its
row. -/
theorem log_payment_fresh_append (db : DB) (now : String) (a : PaymentArgs) (pid : String)
    (hpid : a.payment_id = JVal.jstr pid) (h0 : paymentCount db pid = 0) :
    (log_payment db now a).payment_log = db.payment_log ++ [paymentRowOf a now] := by
  unfold log_payment
  rw [hpid, if_neg (by simp [any_pid_false_of_count_zero db pid h0])]

theorem paymentCount_log_payment_fresh (db : DB) (now : String) (a : PaymentArgs)
    (pid : String) (hpid : a.payment_id = JVal.jstr pid)
    (h0 : paymentCount db pid = 0) :
    paymentCount (log_payment db now a) pid = 1 := by
  unfold paymentCount at h0
  have hnil : db.payment_log.filter (fun r => sqlEq r.razorpay_payment_id (JVal.jstr pid))
      = [] := List.length_eq_zero.mp h0
  have hany : db.payment_log.any (fun r => sqlEq r.razorpay_payment_id a.payment_id)
      = false := by
    rw [hpid, Bool.eq_false_iff]
    intro hT
    obtain ⟨r, hr, hpr⟩ := List.any_eq_true.mp hT
    exact (List.filter_eq_nil_iff.mp hnil) r hr hpr
  unfold log_payment
  rw [if_neg (by simp [hany])]
  unfold paymentCount
  simp only [List.filter_append, List.length_append, hnil]
  simp [sqlEq, paymentRowOf, hpid]

theorem paymentCount_log_payment_dup (db : DB) (now : String) (a : PaymentArgs)
    (pid : String) (hpid : a.payment_id = JVal.jstr pid)
    (h1 : paymentCount db pid ≠ 0) :
    paymentCount (log_payment db now a) pid = paymentCount db pid := by
  have hne : db.payment_log.filter (fun r => sqlEq r.razorpay_payment_id (JVal.jstr pid))
      ≠ [] := by
    intro hnil
    exact h1 (by unfold paymentCount; rw [hnil]; rfl)
  obtain ⟨x, hx⟩ := List.exists_mem_of_ne_nil _ hne
  obtain ⟨hmem, hp⟩ := List.mem_filter.mp hx
  have hany : db.payment_log.any (fun r => sqlEq r.razorpay_payment_id a.payment_id)
      = true := by
    rw [hpid]
    exact List.any_eq_true.mpr ⟨x, hmem, hp⟩
  unfold log_payment
  rw [if_pos hany]

theorem paymentCount_eq_of_payment_log_eq (db db' : DB) (pid : String)
    (h : db'.payment_log = db.payment_log) : paymentCount db' pid = paymentCount db pid := by
  unfold paymentCount
  rw [h]

/-! ### The effect of one webhook delivery on the database -/

/-- The `UpsertFields` the `subscription.charged` branch passes for the
canonical payload. -/
def chargedFields (sid pk : String) : UpsertFields :=
  { plan_key := JVal.jstr pk, status := JVal.jstr "active",
    razorpay_sub_id := JVal.jstr sid }

/-- The `PaymentArgs` the `subscription.charged` branch passes for the
canonical payload. -/
def chargedArgs (e pid sid pk ct : String) (amt : Int) (payload_str : String) : PaymentArgs :=
  { email := JVal.jstr e, phone := JVal.jstr ct, plan_key := JVal.jstr pk,
    payment_id := JVal.jstr pid, sub_id := JVal.jstr sid, amount_paise := JVal.jnum amt,
    event_type := JVal.jstr "subscription.charged", status := JVal.jstr "captured",
    webhook_payload := JVal.jstr payload_str }

/-- The `UpsertFields` the `subscription.activated` branch passes for the
canonical payload. -/
def activatedFields (sid pk now : String) : UpsertFields :=
  { plan_key := JVal.jstr pk, status := JVal.jstr "active",
    razorpay_sub_id := JVal.jstr sid, activated_at := JVal.jstr now }

theorem charged_webhook_eq (h : String → List Nat → String) (cfg : Config) (db : DB)
    (bytes : List Nat) (sig now e pid sid pk ct : String) (amt : Int)
    (hv : verify_webhook_signature h cfg bytes sig = Except.ok true)
    (he : e ≠ "") (hp : pid ≠ "") :
    razorpay_webhook h cfg db now (RawBody.valid bytes (chargedPayload e pid sid pk ct amt)) sig
      = (log_payment
          (upsert_subscriber
            { db with webhook_log := db.webhook_log ++
                [webhookRowFor (chargedPayload e pid sid pk ct amt) true now] }
            now (JVal.jstr e) (chargedFields sid pk))
          now (chargedArgs e pid sid pk ct amt (JVal.dump (chargedPayload e pid sid pk ct amt))),
        Except.ok "processed") := by
  unfold razorpay_webhook
  dsimp only [RawBody.bytes]
  rw [hv]
  have he' : (e == "") = false := by simp [he]
  have hp' : (pid == "") = false := by simp [hp]
  simp [chargedPayload, pyDictGet, lookupField, JVal.eqStr, JVal.truthy, handleCharged,
        getEntity, webhookRowFor, chargedFields, chargedArgs, he', hp']
  intro hc
  exact absurd (hc he) hp

theorem activated_webhook_eq (h : String → List Nat → String) (cfg : Config) (db : DB)
    (bytes : List Nat) (sig now e sid pk : String)
    (hv : verify_webhook_signature h cfg bytes sig = Except.ok true)
    (he : e ≠ "") :
    razorpay_webhook h cfg db now (RawBody.valid bytes (activatedPayload e sid pk)) sig
      = (upsert_subscriber
          { db with webhook_log := db.webhook_log ++
              [webhookRowFor (activatedPayload e sid pk) true now] }
          now (JVal.jstr e) (activatedFields sid pk now),
        Except.ok "processed") := by
  unfold razorpay_webhook
  dsimp only [RawBody.bytes]
  rw [hv]
  have he' : (e == "") = false := by simp [he]
  simp [activatedPayload, pyDictGet, lookupField, JVal.eqStr, JVal.truthy, handleActivated,
        getEntity, webhookRowFor, activatedFields, he']
  intro hc
  exact absurd hc he

/-- Whatever a `subscription.activated` dispatch does, it never touches the
audit table. -/
theorem handleActivated_webhook_log (entity : JVal) (db : DB) (now : String) (db2 : DB)
    (hh : handleActivated entity db now = some db2) : db2.webhook_log = db.webhook_log := by
  unfold handleActivated at hh
  repeat' split at hh
  all_goals cases hh
  all_goals first
    | rfl
    | exact upsert_webhook_log _ _ _ _

/-- Whatever a `subscription.charged` dispatch does, it never touches the
audit table. -/
theorem handleCharged_webhook_log (entity : JVal) (ps : String) (db : DB) (now : String)
    (db2 : DB) (hh : handleCharged entity ps db now = some db2) :
    db2.webhook_log = db.webhook_log := by
  unfold handleCharged at hh
  repeat' split at hh
  all_goals cases hh
  all_goals first
    | rfl
    | simp [log_payment_webhook_log, upsert_webhook_log]

/-- Whatever a `subscription.cancelled` dispatch does, it never touches the
audit table. -/
theorem handleCancelled_webhook_log (entity : JVal) (db : DB) (now : String) (db2 : DB)
    (hh : handleCancelled entity db now = some db2) : db2.webhook_log = db.webhook_log := by
  unfold handleCancelled at hh
  repeat' split at hh
  all_goals cases hh
  all_goals first
    | rfl
    | exact upsert_webhook_log _ _ _ _

/-- Whatever a `subscription.completed` dispatch does, it never touches the
audit table. -/
theorem handleCompleted_webhook_log (entity : JVal) (db : DB) (now : String) (db2 : DB)
    (hh : handleCompleted entity db now = some db2) : db2.webhook_log = db.webhook_log := by
  unfold handleCompleted at hh
  repeat' split at hh
  all_goals cases hh
  all_goals first
    | rfl
    | exact upsert_webhook_log _ _ _ _

/-- Whatever a `payment.failed` dispatch does, it never touches the audit
table. -/
theorem handlePaymentFailed_webhook_log (entity : JVal) (ps : String) (db : DB) (now : String)
    (db2 : DB) (hh : handlePaymentFailed entity ps db now = some db2) :
    db2.webhook_log = db.webhook_log := by
  unfold handlePaymentFailed at hh
  repeat' split at hh
  all_goals cases hh
  all_goals first
    | rfl
    | simp [log_payment_webhook_log, upsert_webhook_log]

/-- Whatever the event dispatch of `razorpay_webhook` does, it never touches
the audit table written just before it. -/
theorem dispatch_webhook_log (event entity : JVal) (ps : String) (db1 : DB) (now : String)
    (db2 : DB)
    (hd : (if event.eqStr "subscription.activated" then handleActivated entity db1 now
           else if event.eqStr "subscription.charged" then handleCharged entity ps db1 now
           else if event.eqStr "subscription.cancelled" then handleCancelled entity db1 now
           else if event.eqStr "subscription.completed" then handleCompleted entity db1 now
           else if event.eqStr "payment.failed" then handlePaymentFailed entity ps db1 now
           else some db1) = some db2) :
    db2.webhook_log = db1.webhook_log := by
  repeat' split at hd
  · exact handleActivated_webhook_log _ _ _ _ hd
  · exact handleCharged_webhook_log _ _ _ _ _ hd
  · exact handleCancelled_webhook_log _ _ _ _ hd
  · exact handleCompleted_webhook_log _ _ _ _ hd
  · exact handlePaymentFailed_webhook_log _ _ _ _ _ hd
  · cases hd
    rfl

theorem charged_step_count (h : String → List Nat → String) (cfg : Config) (db : DB)
    (bytes : List Nat) (sig now e pid sid pk ct : String) (amt : Int)
    (hv : verify_webhook_signature h cfg bytes sig = Except.ok true)
    (he : e ≠ "") (hp : pid ≠ "")
    (hc : paymentCount db pid ≤ 1) :
    paymentCount
      (razorpay_webhook h cfg db now
        (RawBody.valid bytes (chargedPayload e pid sid pk ct amt)) sig).1 pid = 1 := by
  rw [charged_webhook_eq h cfg db bytes sig now e pid sid pk ct amt hv he hp]
  have hbase : paymentCount
      (upsert_subscriber
        { db with webhook_log := db.webhook_log ++
            [webhookRowFor (chargedPayload e pid sid pk ct amt) true now] }
        now (JVal.jstr e) (chargedFields sid pk)) pid = paymentCount db pid := by
    apply paymentCount_eq_of_payment_log_eq
    rw [upsert_payment_log]
  by_cases h0 : paymentCount db pid = 0
  · exact paymentCount_log_payment_fresh _ _ _ pid rfl (by rw [hbase, h0])
  · have h1 : paymentCount db pid = 1 :=
      Nat.le_antisymm hc (Nat.one_le_iff_ne_zero.mpr h0)
    rw [paymentCount_log_payment_dup _ _ _ pid rfl (by rw [hbase]; exact h0), hbase, h1]

theorem charged_step_status (h : String → List Nat → String) (cfg : Config) (db : DB)
    (bytes : List Nat) (sig now e pid sid pk ct : String) (amt : Int)
    (hv : verify_webhook_signature h cfg bytes sig = Except.ok true)
    (he : e ≠ "") (hp : pid ≠ "") :
    statusOf
      (razorpay_webhook h cfg db now
        (RawBody.valid bytes (chargedPayload e pid sid pk ct amt)) sig).1 e
      = some (JVal.jstr "active") := by
  rw [charged_webhook_eq h cfg db bytes sig now e pid sid pk ct amt hv he hp]
  rw [statusOf_eq_of_subscribers_eq _ _ e (log_payment_subscribers _ _ _)]
  exact statusOf_upsert _ _ e _ (fun hh => JVal.noConfusion hh)

/-! ### Concrete fixtures for witnesses and counterexamples -/

/-- A constant digest function standing in for HMAC-SHA256 in concrete
instances: every body's digest is `"aa"`, so the header `"aa"` verifies and
any other header does not. -/
def hexConst : String → List Nat → String := fun _ _ => "aa"

def cfg0 : Config :=
  { key_id := "rzp_test", key_secret := "ks", webhook_secret := "ws",
    standard_plan_id := "plan_A", pro_plan_id := "plan_B" }

/-- An empty database (freshly initialised schema). -/
def dbE : DB := { subscribers := [], payment_log := [], webhook_log := [] }

/-- An active subscriber with an upstream subscription id. -/
def subActive : Subscriber :=
  { email := JVal.jstr "a@x.com", name := JVal.jstr "A", phone := JVal.jstr "+1",
    plan_key := JVal.jstr "standard", status := JVal.jstr "active",
    razorpay_customer_id := JVal.jnull, razorpay_sub_id := JVal.jstr "sub_1",
    created_at := JVal.jstr "t0", trial_start_at := JVal.jstr "t0",
    activated_at := JVal.jstr "t0", cancelled_at := JVal.jnull,
    cancel_at_period_end := JVal.jnum 0, updated_at := JVal.jstr "t0" }

def dbActive : DB := { subscribers := [subActive], payment_log := [], webhook_log := [] }

/-- A trial subscriber whose upstream subscription id is NULL (as after a
payment-success confirmation for an email never passed through
`create_subscription`, or a row inserted by a webhook without an id). -/
def subTrial : Subscriber :=
  { email := JVal.jstr "t@x.com", name := JVal.jstr "T", phone := JVal.jstr "+2",
    plan_key := JVal.jstr "pro", status := JVal.jstr "trial",
    razorpay_customer_id := JVal.jnull, razorpay_sub_id := JVal.jnull,
    created_at := JVal.jstr "t0", trial_start_at := JVal.jstr "t0",
    activated_at := JVal.jnull, cancelled_at := JVal.jnull,
    cancel_at_period_end := JVal.jnum 0, updated_at := JVal.jstr "t0" }

def dbTrial : DB := { subscribers := [subTrial], payment_log := [], webhook_log := [] }

/-! ### C5 — payment-success with a failing signature mutates nothing -/

/-- C5: every `POST /api/payment-success` request whose signature fails
verification is answered with HTTP 400 "Invalid payment signature" and
performs no mutation — the whole database (subscriber rows and payment log)
is returned exactly as it was. -/
theorem C5_invalid_signature_no_mutation (hmacHex : String → List Nat → String)
    (cfg : Config) (db : DB) (now : String) (req : PaymentSuccessRequest)
    (hv : verify_razorpay_signature hmacHex cfg req.razorpay_payment_id
        req.razorpay_subscription_id req.razorpay_signature = Except.ok false) :
    payment_success hmacHex cfg db now req
      = (db, Except.error (HandlerError.http 400 "Invalid payment signature")) := by
  unfold payment_success
  rw [hv]

/-- A payment-success request whose signature header does not match the
`hexConst` digest. -/
def psReqBad : PaymentSuccessRequest :=
  { razorpay_payment_id := "pay_1", razorpay_subscription_id := "sub_1",
    razorpay_signature := "bb", email := "a@x.com", name := "A", phone := "+1",
    plan_key := "standard" }

/-- Witness for C5 at a concrete tampered signature. -/
theorem C5_witness :
    payment_success hexConst cfg0 dbE "t0" psReqBad
      = (dbE, Except.error (HandlerError.http 400 "Invalid payment signature")) :=
  C5_invalid_signature_no_mutation hexConst cfg0 dbE "t0" psReqBad rfl

/-! ### C6 — gateway failure during cancellation leaves local state untouched -/

/-- C6: when the subscriber exists with a non-terminal status and a truthy
stored subscription id, and the gateway cancel-at-cycle-end call raises, the
operation surfaces HTTP 500 (`"Razorpay error: ..."`), the gateway call is
the only external effect, and no local mutation happens — the database is
returned unchanged. -/
theorem C6_gateway_failure_no_mutation (db : DB) (now e m : String) (row : Subscriber)
    (hrow : findSub db (JVal.jstr e) = some row)
    (hterm : (row.status.eqStr "cancelled" || row.status.eqStr "expired") = false)
    (hsid : row.razorpay_sub_id.truthy = true) :
    cancel_subscription (Except.error m) db now e
      = (db, [GatewayCall.cancelAtCycleEnd row.razorpay_sub_id],
          Except.error (HandlerError.http 500 ("Razorpay error: " ++ m))) := by
  unfold cancel_subscription
  rw [hrow]
  dsimp only
  rw [if_neg (by simp [hterm]), if_pos hsid]

/-- Witness for C6: an active subscriber, gateway raising `"boom"`. -/
theorem C6_witness :
    cancel_subscription (Except.error "boom") dbActive "t1" "a@x.com"
      = (dbActive, [GatewayCall.cancelAtCycleEnd subActive.razorpay_sub_id],
          Except.error (HandlerError.http 500 ("Razorpay error: " ++ "boom"))) :=
  C6_gateway_failure_no_mutation dbActive "t1" "a@x.com" "boom" subActive rfl rfl rfl

/-! ### C7 — the signature verifiers are total only on ASCII signatures -/

/-- C7 counterexample: the claim says the verifiers never raise for any
signature string, but `hmac.compare_digest` on `str` arguments raises
`TypeError` when one of them contains a non-ASCII character, which a
client-supplied signature field (or a latin-1-decoded webhook header) can:
both verifiers raise on the signature `"é"`. -/
theorem C7_counterexample :
    verify_razorpay_signature hexConst cfg0 "pay_1" "sub_1" "é"
      = Except.error
          "TypeError: comparing strings with non-ASCII characters is not supported"
    ∧ verify_webhook_signature hexConst cfg0 [] "é"
      = Except.error
          "TypeError: comparing strings with non-ASCII characters is not supported" :=
  ⟨rfl, rfl⟩

/-- C7 as amended: for every ASCII signature string (and any digest function
whose outputs are ASCII, as `hexdigest()`'s are), both verifiers are total
and effect-free: they return the boolean equality of the expected digest with
the supplied signature — in particular `false`, not an exception, on any
mismatch. -/
theorem C7_amended (hmacHex : String → List Nat → String) (cfg : Config)
    (payment_id subscription_id signature : String) (body : List Nat)
    (h1 : asciiOnly (hmacHex cfg.key_secret
        (strBytes (payment_id ++ "|" ++ subscription_id))) = true)
    (h2 : asciiOnly (hmacHex cfg.webhook_secret body) = true)
    (hs : asciiOnly signature = true) :
    verify_razorpay_signature hmacHex cfg payment_id subscription_id signature
      = Except.ok (hmacHex cfg.key_secret
          (strBytes (payment_id ++ "|" ++ subscription_id)) == signature)
    ∧ verify_webhook_signature hmacHex cfg body signature
      = Except.ok (hmacHex cfg.webhook_secret body == signature) := by
  constructor
  · unfold verify_razorpay_signature compare_digest
    rw [if_pos (by simp [h1, hs])]
  · unfold verify_webhook_signature compare_digest
    rw [if_pos (by simp [h2, hs])]

/-- Witness for C7 at a concrete mismatching ASCII signature. -/
theorem C7_witness :
    verify_razorpay_signature hexConst cfg0 "pay_1" "sub_1" "zz"
      = Except.ok (hexConst cfg0.key_secret (strBytes ("pay_1" ++ "|" ++ "sub_1")) == "zz")
    ∧ verify_webhook_signature hexConst cfg0 [] "zz"
      = Except.ok (hexConst cfg0.webhook_secret [] == "zz") :=
  C7_amended hexConst cfg0 "pay_1" "sub_1" "zz" [] (by decide) (by decide) (by decide)

/-! ### C9 — subscription-status -/

/-- C9 counterexample: the claim says every email with no subscriber row gets
the `not_found`/`active: false` body, but the handler first rejects the empty
email with HTTP 400 — and the empty email has no subscriber row. -/
theorem C9_counterexample :
    subscription_status dbE "" = Except.error (HandlerError.http 400 "email required")
    ∧ findSub dbE (JVal.jstr "") = none :=
  ⟨rfl, rfl⟩

/-- C9 as amended: `subscription_status` is read-only (by its very type it
returns no new database, matching the SELECT-only source) and, for every
NON-EMPTY email: with no subscriber row it answers `not_found` (whose body
carries `active: false`), and with a stored row it answers the stored
snapshot together with `active = status in ("trial", "active")` and
`bool(cancel_at_period_end)`.  The empty email is answered with HTTP 400
instead. -/
theorem C9_amended (db : DB) (email : String) (hne : email ≠ "") :
    (findSub db (JVal.jstr email) = none →
      subscription_status db email = Except.ok StatusResp.notFound)
    ∧ (∀ row, findSub db (JVal.jstr email) = some row →
      subscription_status db email
        = Except.ok (StatusResp.snapshot row.email row.name row.plan_key row.status
            (row.status.eqStr "trial" || row.status.eqStr "active")
            row.razorpay_sub_id row.trial_start_at row.activated_at row.cancelled_at
            row.cancel_at_period_end.truthy row.updated_at)) := by
  have hne' : (email == "") = false := by simp [hne]
  constructor
  · intro hn
    unfold subscription_status
    rw [if_neg (by simp [hne']), hn]
  · intro row hr
    unfold subscription_status
    rw [if_neg (by simp [hne']), hr]

/-- Witness for C9: the stored active subscriber is reported with
`active = true` and `cancel_at_period_end = false`. -/
theorem C9_witness :
    subscription_status dbActive "a@x.com"
      = Except.ok (StatusResp.snapshot subActive.email subActive.name subActive.plan_key
          subActive.status true subActive.razorpay_sub_id subActive.trial_start_at
          subActive.activated_at subActive.cancelled_at false subActive.updated_at) :=
  (C9_amended dbActive "a@x.com" (by decide)).2 subActive rfl

/-- After a fresh `log_payment`, the plan keys of the rows carrying the new
payment id are exactly the one verbatim plan key of the insert. -/
theorem filtered_plan_keys_after_log (db : DB) (now : String) (a : PaymentArgs)
    (pid : String) (hpid : a.payment_id = JVal.jstr pid)
    (h0 : paymentCount db pid = 0) :
    ((log_payment db now a).payment_log.filter
        (fun r => sqlEq r.razorpay_payment_id (JVal.jstr pid))).map (fun r => r.plan_key)
      = [a.plan_key] := by
  rw [log_payment_fresh_append db now a pid hpid h0, List.filter_append]
  have hnil : db.payment_log.filter (fun r => sqlEq r.razorpay_payment_id (JVal.jstr pid))
      = [] := List.length_eq_zero.mp h0
  rw [hnil]
  simp [paymentRowOf, sqlEq, hpid]

/-! ### C10 — payment-success stores the client plan_key verbatim -/

/-- C10: a validly-signed `payment-success` confirmation writes the
caller-supplied `plan_key` string verbatim, with no allow-list validation:
the subscriber row for the request's email ends up with exactly that string
as its stored `plan_key`, and (when the payment id is new) the single
payment-log row for that payment id carries the same verbatim string.  The
request's `plan_key` here is an arbitrary string — nothing restricts it to
`\x7b"standard", "pro"\x7d`; the allow-list check exists only in
`create_subscription`. -/
theorem C10_plan_key_verbatim (hmacHex : String → List Nat → String) (cfg : Config)
    (db : DB) (now : String) (req : PaymentSuccessRequest)
    (hv : verify_razorpay_signature hmacHex cfg req.razorpay_payment_id
        req.razorpay_subscription_id req.razorpay_signature = Except.ok true)
    (hfresh : paymentCount db req.razorpay_payment_id = 0) :
    planKeyOf (payment_success hmacHex cfg db now req).1 req.email
      = some (JVal.jstr req.plan_key)
    ∧ ((payment_success hmacHex cfg db now req).1.payment_log.filter
          (fun r => sqlEq r.razorpay_payment_id (JVal.jstr req.razorpay_payment_id))).map
        (fun r => r.plan_key)
      = [JVal.jstr req.plan_key] := by
  unfold payment_success
  rw [hv]
  dsimp only
  constructor
  · rw [planKeyOf_eq_of_subscribers_eq _ _ req.email (log_payment_subscribers _ _ _)]
    exact planKeyOf_upsert _ _ req.email _
      (fun hh => JVal.noConfusion hh) (fun hh => JVal.noConfusion hh)
  · exact filtered_plan_keys_after_log _ now _ req.razorpay_payment_id rfl
      (by rw [paymentCount_eq_of_payment_log_eq _ _ _ (upsert_payment_log _ _ _ _)]
          exact hfresh)

/-- A validly-signed payment-success request carrying a plan_key far outside
the allow-list. -/
def psReqRogue : PaymentSuccessRequest :=
  { razorpay_payment_id := "pay_9", razorpay_subscription_id := "sub_9",
    razorpay_signature := "aa", email := "r@x.com", name := "R", phone := "+3",
    plan_key := "totally-bogus-plan" }

/-- Witness for C10: the string "totally-bogus-plan" is stored verbatim. -/
theorem C10_witness :
    planKeyOf (payment_success hexConst cfg0 dbE "t0" psReqRogue).1 "r@x.com"
      = some (JVal.jstr "totally-bogus-plan")
    ∧ ((payment_success hexConst cfg0 dbE "t0" psReqRogue).1.payment_log.filter
          (fun r => sqlEq r.razorpay_payment_id (JVal.jstr "pay_9"))).map
        (fun r => r.plan_key)
      = [JVal.jstr "totally-bogus-plan"] :=
  C10_plan_key_verbatim hexConst cfg0 dbE "t0" psReqRogue rfl rfl

/-! ### C8 — the create-subscription plan allow-list is case-insensitive -/

/-- A creation request whose plan_key is an uppercase variant of an
allow-listed key, with a client-supplied plan id. -/
def reqUpper : CreateSubscriptionRequest :=
  { email := "a@x.com", name := "A", phone := "+1", plan_key := "STANDARD",
    plan_id := "plan_client_chosen" }

/-- C8 counterexample: the claim says every request whose `plan_key` is not
in the allow-list `\x7b"standard", "pro"\x7d` is rejected with no gateway
call and no subscriber write; but the handler lowercases the key first, so
the request with `plan_key = "STANDARD"` — not a member of that set — is
accepted: the gateway is called (with the server-side standard plan id) and a
subscriber row is written. -/
theorem C8_counterexample :
    ("STANDARD" ≠ "standard" ∧ "STANDARD" ≠ "pro")
    ∧ (create_subscription cfg0 (GwCreateResult.ok "sub_9") dbE "t0" reqUpper).2.1
        = [GatewayCall.createSub "plan_A"]
    ∧ (create_subscription cfg0 (GwCreateResult.ok "sub_9") dbE "t0" reqUpper).2.2
        = Except.ok ("sub_9", "rzp_test")
    ∧ (create_subscription cfg0 (GwCreateResult.ok "sub_9") dbE "t0" reqUpper).1.subscribers.length
        = 1 :=
  ⟨⟨by decide, by decide⟩, rfl, rfl, rfl⟩

/-- C8 as amended: the allow-list check is applied to the LOWERCASED client
plan_key.  Whenever `plan_key.lower()` is outside `\x7b"standard", "pro"\x7d`
the request is rejected with HTTP 400 "Invalid plan"; when it is allow-listed
but the configured upstream plan id is empty, with HTTP 503 "Plan not
configured"; in both rejection cases the gateway call trace is empty and the
database is returned unchanged (no subscriber written).  The client `plan_id`
field is ignored throughout. -/
theorem C8_amended (cfg : Config) (gw : GwCreateResult) (db : DB) (now : String)
    (req : CreateSubscriptionRequest) :
    (pyLower req.plan_key ≠ "standard" → pyLower req.plan_key ≠ "pro" →
      create_subscription cfg gw db now req
        = (db, [], Except.error (HandlerError.http 400 "Invalid plan")))
    ∧ (pyLower req.plan_key = "standard" → cfg.standard_plan_id = "" →
      create_subscription cfg gw db now req
        = (db, [], Except.error (HandlerError.http 503 "Plan not configured")))
    ∧ (pyLower req.plan_key = "pro" → cfg.pro_plan_id = "" →
      create_subscription cfg gw db now req
        = (db, [], Except.error (HandlerError.http 503 "Plan not configured"))) := by
  refine ⟨?_, ?_, ?_⟩
  · intro h1 h2
    unfold create_subscription plan_id_for
    dsimp only
    rw [if_neg (by simp [h1]), if_neg (by simp [h2])]
  · intro h1 h2
    unfold create_subscription plan_id_for
    dsimp only
    rw [h1, if_pos (by decide)]
    dsimp only
    rw [h2, if_pos (by decide)]
  · intro h1 h2
    unfold create_subscription plan_id_for
    dsimp only
    rw [h1, if_neg (by decide), if_pos (by decide)]
    dsimp only
    rw [h2, if_pos (by decide)]

/-- A creation request with a plan key outside the allow-list even after
lowercasing. -/
def reqGold : CreateSubscriptionRequest :=
  { email := "a@x.com", name := "A", phone := "+1", plan_key := "Gold",
    plan_id := "plan_client_chosen" }

/-- Witness for C8: "Gold" is rejected with 400, no gateway call, no write. -/
theorem C8_witness :
    create_subscription cfg0 (GwCreateResult.ok "sub_9") dbE "t0" reqGold
      = (dbE, [], Except.error (HandlerError.http 400 "Invalid plan")) :=
  (C8_amended cfg0 (GwCreateResult.ok "sub_9") dbE "t0" reqGold).1 (by decide) (by decide)

/-! ### C4 — cancellation of a non-terminal subscriber -/

/-- C4 counterexample: the claim says the gateway cancel-at-cycle-end is
called and the status is left unchanged for every subscriber outside
`\x7b cancelled, expired \x7d`; but for a TRIAL subscriber with a NULL
upstream subscription id the call succeeds with an empty gateway trace (no
call is made) and the status is rewritten from `trial` to `active`. -/
theorem C4_counterexample :
    statusOf dbTrial "t@x.com" = some (JVal.jstr "trial")
    ∧ (cancel_subscription (Except.ok ()) dbTrial "t1" "t@x.com").2.1 = []
    ∧ (cancel_subscription (Except.ok ()) dbTrial "t1" "t@x.com").2.2
        = Except.ok "cancel_scheduled"
    ∧ statusOf (cancel_subscription (Except.ok ()) dbTrial "t1" "t@x.com").1 "t@x.com"
        = some (JVal.jstr "active")
    ∧ capeOf (cancel_subscription (Except.ok ()) dbTrial "t1" "t@x.com").1 "t@x.com"
        = some (JVal.jnum 1) :=
  ⟨rfl, rfl, rfl, rfl, rfl⟩

/-- C4 as amended: for every subscriber whose stored status is neither
`cancelled` nor `expired`, a successful `cancel_subscription` sets
`cancel_at_period_end` to 1 and SETS the status to `active` (so the status is
unchanged exactly when it already was `active`); the gateway
cancel-at-cycle-end is called precisely when the stored `razorpay_sub_id` is
truthy (non-NULL, non-empty), and the request is answered
`cancel_scheduled`. -/
theorem C4_amended (db : DB) (now e : String) (row : Subscriber)
    (hrow : findSub db (JVal.jstr e) = some row)
    (hterm : (row.status.eqStr "cancelled" || row.status.eqStr "expired") = false) :
    (cancel_subscription (Except.ok ()) db now e).2.1
      = (if row.razorpay_sub_id.truthy then [GatewayCall.cancelAtCycleEnd row.razorpay_sub_id]
         else [])
    ∧ (cancel_subscription (Except.ok ()) db now e).2.2 = Except.ok "cancel_scheduled"
    ∧ statusOf (cancel_subscription (Except.ok ()) db now e).1 e
        = some (JVal.jstr "active")
    ∧ capeOf (cancel_subscription (Except.ok ()) db now e).1 e = some (JVal.jnum 1) := by
  unfold cancel_subscription
  rw [hrow]
  dsimp only
  rw [if_neg (by simp [hterm])]
  by_cases hsid : row.razorpay_sub_id.truthy = true
  · rw [if_pos hsid]
    dsimp only
    refine ⟨by rw [if_pos hsid], rfl, ?_, ?_⟩
    · exact statusOf_upsert _ _ e _ (fun hh => JVal.noConfusion hh)
    · exact capeOf_upsert _ _ e _
        (fun hh => JVal.noConfusion hh) (fun hh => JVal.noConfusion hh)
  · rw [if_neg hsid]
    refine ⟨by rw [if_neg hsid], rfl, ?_, ?_⟩
    · exact statusOf_upsert _ _ e _ (fun hh => JVal.noConfusion hh)
    · exact capeOf_upsert _ _ e _
        (fun hh => JVal.noConfusion hh) (fun hh => JVal.noConfusion hh)

/-- Witness for C4 at the stored active subscriber (truthy sub id). -/
theorem C4_witness :
    (cancel_subscription (Except.ok ()) dbActive "t1" "a@x.com").2.1
      = (if subActive.razorpay_sub_id.truthy
         then [GatewayCall.cancelAtCycleEnd subActive.razorpay_sub_id] else [])
    ∧ (cancel_subscription (Except.ok ()) dbActive "t1" "a@x.com").2.2
        = Except.ok "cancel_scheduled"
    ∧ statusOf (cancel_subscription (Except.ok ()) dbActive "t1" "a@x.com").1 "a@x.com"
        = some (JVal.jstr "active")
    ∧ capeOf (cancel_subscription (Except.ok ()) dbActive "t1" "a@x.com").1 "a@x.com"
        = some (JVal.jnum 1) :=
  C4_amended dbActive "t1" "a@x.com" subActive rfl rfl

/-! ### C3 — redelivered activation events -/

/-- The activation event body used in the C3 concrete runs (the signature
header `"aa"` matches the `hexConst` digest, so the delivery is valid). -/
def actBody : RawBody := RawBody.valid [1, 2] (activatedPayload "a@x.com" "sub_1" "standard")

/-- The database after the first delivery of `actBody` at time `"t1"`. -/
def dbAct1 : DB := (razorpay_webhook hexConst cfg0 dbE "t1" actBody "aa").1

/-- The database after redelivering `actBody` at time `"t2"`. -/
def dbAct2 : DB := (razorpay_webhook hexConst cfg0 dbAct1 "t2" actBody "aa").1

/-- C3 counterexample: the claim says a redelivered `subscription.activated`
leaves `activated_at` unchanged (set only if previously unset); but the
handler passes `activated_at=utcnow()` unconditionally and `upsert_subscriber`
writes every non-`None` field, so the redelivery at `"t2"` overwrites the
`"t1"` value.  (The status does remain `active`.) -/
theorem C3_counterexample :
    activatedAtOf dbAct1 "a@x.com" = some (JVal.jstr "t1")
    ∧ statusOf dbAct1 "a@x.com" = some (JVal.jstr "active")
    ∧ activatedAtOf dbAct2 "a@x.com" = some (JVal.jstr "t2")
    ∧ statusOf dbAct2 "a@x.com" = some (JVal.jstr "active")
    ∧ JVal.jstr "t2" ≠ JVal.jstr "t1" :=
  ⟨rfl, rfl, rfl, rfl, by simp⟩

/-- C3 as amended: EVERY validly-signed `subscription.activated` delivery
with a non-empty email — first delivery or redelivery, whatever the prior
row — leaves the subscriber's status `active` and overwrites `activated_at`
with the current delivery's server timestamp (it is reset on redelivery, not
preserved). -/
theorem C3_amended (h : String → List Nat → String) (cfg : Config) (db : DB)
    (bytes : List Nat) (sig now e sid pk : String)
    (hv : verify_webhook_signature h cfg bytes sig = Except.ok true)
    (he : e ≠ "") :
    statusOf (razorpay_webhook h cfg db now
        (RawBody.valid bytes (activatedPayload e sid pk)) sig).1 e
      = some (JVal.jstr "active")
    ∧ activatedAtOf (razorpay_webhook h cfg db now
        (RawBody.valid bytes (activatedPayload e sid pk)) sig).1 e
      = some (JVal.jstr now) := by
  rw [activated_webhook_eq h cfg db bytes sig now e sid pk hv he]
  constructor
  · exact statusOf_upsert _ _ e _ (fun hh => JVal.noConfusion hh)
  · exact activatedAtOf_upsert _ _ e _
      (fun hh => JVal.noConfusion hh) (fun hh => JVal.noConfusion hh)

/-- Witness for C3: a redelivery onto the already-active subscriber database
`dbAct1` ends active with `activated_at = "t2"`. -/
theorem C3_witness :
    statusOf (razorpay_webhook hexConst cfg0 dbAct1 "t2"
        (RawBody.valid [1, 2] (activatedPayload "a@x.com" "sub_1" "standard")) "aa").1
        "a@x.com"
      = some (JVal.jstr "active")
    ∧ activatedAtOf (razorpay_webhook hexConst cfg0 dbAct1 "t2"
        (RawBody.valid [1, 2] (activatedPayload "a@x.com" "sub_1" "standard")) "aa").1
        "a@x.com"
      = some (JVal.jstr "t2") :=
  C3_amended hexConst cfg0 dbAct1 [1, 2] "aa" "t2" "a@x.com" "sub_1" "standard"
    rfl (by decide)

/-! ### C1 — the audit trail of `processWebhook` -/

/-- C1 counterexample: the claim says EVERY call, whatever the body, appends
exactly one `webhook_log` row; but a body that is not valid JSON — here the
single byte `\x7b` with a signature that actually verifies — is rejected with
HTTP 400 BEFORE the audit insert, appending no row at all. -/
theorem C1_counterexample :
    (razorpay_webhook hexConst cfg0 dbE "t0" (RawBody.invalid [123]) "aa").1.webhook_log.length
      = 0
    ∧ (razorpay_webhook hexConst cfg0 dbE "t0" (RawBody.invalid [123]) "aa").2
      = Except.error (HandlerError.http 400 "Invalid payload") :=
  ⟨rfl, rfl⟩

/-- C1 as amended: for every call whose signature header is ASCII (the digest
being hex is always ASCII) and whose body parses as a JSON object, exactly
one row is appended to `webhook_log`, whether the signature verifies or not
and whatever the dispatch then does; when the signature fails to verify the
audit row is moreover the ONLY change — subscribers and payment log are
untouched and the call is acknowledged `signature_invalid`.  A body that is
not valid JSON is instead rejected with HTTP 400 and appends nothing. -/
theorem C1_amended (h : String → List Nat → String) (cfg : Config) (db : DB)
    (now : String) (bytes : List Nat) (payload : JVal) (sig : String)
    (hhex : asciiOnly (h cfg.webhook_secret bytes) = true)
    (hsig : asciiOnly sig = true)
    (hobj : payload.isObj = true) :
    ((razorpay_webhook h cfg db now (RawBody.valid bytes payload) sig).1).webhook_log
      = db.webhook_log ++ [webhookRowFor payload (h cfg.webhook_secret bytes == sig) now]
    ∧ ((h cfg.webhook_secret bytes == sig) = false →
        razorpay_webhook h cfg db now (RawBody.valid bytes payload) sig
          = ({ db with webhook_log := db.webhook_log ++ [webhookRowFor payload false now] },
             Except.ok "signature_invalid"))
    ∧ razorpay_webhook h cfg db now (RawBody.invalid bytes) sig
      = (db, Except.error (HandlerError.http 400 "Invalid payload")) := by
  have hver : verify_webhook_signature h cfg bytes sig
      = Except.ok (h cfg.webhook_secret bytes == sig) := by
    unfold verify_webhook_signature compare_digest
    rw [if_pos (by simp [hhex, hsig])]
  cases payload
  case jobj fs =>
    refine ⟨?_, ?_, ?_⟩
    · unfold razorpay_webhook
      dsimp only [RawBody.bytes]
      rw [hver]
      cases hb : (h cfg.webhook_secret bytes == sig) with
      | false => simp [pyDictGet, webhookRowFor]
      | true =>
        dsimp only [pyDictGet]
        rw [if_neg (by simp)]
        split
        next db2 heq =>
          rw [dispatch_webhook_log _ _ _ _ _ _ heq]
          simp [pyDictGet, webhookRowFor]
        next => simp [pyDictGet, webhookRowFor]
    · intro hb
      unfold razorpay_webhook
      dsimp only [RawBody.bytes]
      rw [hver, hb]
      simp [pyDictGet, webhookRowFor]
    · unfold razorpay_webhook
      dsimp only [RawBody.bytes]
      rw [hver]
  all_goals simp [JVal.isObj] at hobj

/-- Witness for C1: a call with the empty JSON object and a mismatching
ASCII signature appends exactly its audit row and nothing else; the same
bytes as a non-JSON body are rejected with 400. -/
theorem C1_witness :
    ((razorpay_webhook hexConst cfg0 dbE "t0"
        (RawBody.valid [1] (JVal.jobj [])) "zz").1).webhook_log
      = dbE.webhook_log
          ++ [webhookRowFor (JVal.jobj []) (hexConst cfg0.webhook_secret [1] == "zz") "t0"]
    ∧ razorpay_webhook hexConst cfg0 dbE "t0" (RawBody.valid [1] (JVal.jobj [])) "zz"
      = ({ dbE with webhook_log := dbE.webhook_log ++ [webhookRowFor (JVal.jobj []) false "t0"] },
         Except.ok "signature_invalid")
    ∧ razorpay_webhook hexConst cfg0 dbE "t0" (RawBody.invalid [1]) "zz"
      = (dbE, Except.error (HandlerError.http 400 "Invalid payload")) := by
  obtain ⟨h1, h2, h3⟩ :=
    C1_amended hexConst cfg0 dbE "t0" [1] (JVal.jobj []) "zz" (by decide) (by decide) rfl
  exact ⟨h1, h2 (by decide), h3⟩

/-! ### C2 — idempotence of repeated `subscription.charged` deliveries -/

/-- After any positive number of deliveries of the same validly-signed
charged payload, the payment-log row for its payment id is unique and the
subscriber is `active`. -/
theorem charged_deliverN_invariant (h : String → List Nat → String) (cfg : Config)
    (db : DB) (bytes : List Nat) (sig : String) (times : Nat → String)
    (e pid sid pk ct : String) (amt : Int)
    (hv : verify_webhook_signature h cfg bytes sig = Except.ok true)
    (he : e ≠ "") (hp : pid ≠ "")
    (hcount : paymentCount db pid ≤ 1) :
    ∀ n,
      paymentCount (deliverN h cfg (RawBody.valid bytes (chargedPayload e pid sid pk ct amt))
        sig times db (n + 1)) pid = 1
      ∧ statusOf (deliverN h cfg (RawBody.valid bytes (chargedPayload e pid sid pk ct amt))
          sig times db (n + 1)) e = some (JVal.jstr "active") := by
  intro n
  induction n with
  | zero =>
    exact ⟨charged_step_count h cfg db bytes sig (times 0) e pid sid pk ct amt hv he hp hcount,
      charged_step_status h cfg db bytes sig (times 0) e pid sid pk ct amt hv he hp⟩
  | succ n ih =>
    exact ⟨charged_step_count h cfg _ bytes sig (times (n + 1)) e pid sid pk ct amt hv he hp
        ih.1.le,
      charged_step_status h cfg _ bytes sig (times (n + 1)) e pid sid pk ct amt hv he hp⟩

/-- C2: delivering the same validly-signed `subscription.charged` payload
(same payment id, same email, same amount) N times, N ≥ 1, leaves exactly one
`payment_log` row carrying that payment id, and the subscriber's status after
the N-th delivery equals the status after the first (both are `active`).
Hypotheses: the email and payment id in the payload are non-empty (the
handler, per the spec, skips events without them), and the starting database
respects the UNIQUE constraint on `razorpay_payment_id` (at most one existing
row for this payment id). -/
theorem C2_charged_idempotent (h : String → List Nat → String) (cfg : Config)
    (db : DB) (bytes : List Nat) (sig : String) (times : Nat → String)
    (e pid sid pk ct : String) (amt : Int) (N : Nat)
    (hv : verify_webhook_signature h cfg bytes sig = Except.ok true)
    (he : e ≠ "") (hp : pid ≠ "")
    (hcount : paymentCount db pid ≤ 1)
    (hN : 1 ≤ N) :
    paymentCount (deliverN h cfg (RawBody.valid bytes (chargedPayload e pid sid pk ct amt))
      sig times db N) pid = 1
    ∧ statusOf (deliverN h cfg (RawBody.valid bytes (chargedPayload e pid sid pk ct amt))
        sig times db N) e
      = statusOf (deliverN h cfg (RawBody.valid bytes (chargedPayload e pid sid pk ct amt))
          sig times db 1) e := by
  obtain ⟨n, rfl⟩ : ∃ n, N = n + 1 := ⟨N - 1, (Nat.succ_pred_eq_of_pos hN).symm⟩
  have hinv := charged_deliverN_invariant h cfg db bytes sig times e pid sid pk ct amt
    hv he hp hcount
  exact ⟨(hinv n).1, by rw [(hinv n).2, (hinv 0).2]⟩

/-- A constant server clock for the witness deliveries. -/
def tconst : Nat → String := fun _ => "t0"

/-- Witness for C2: two deliveries of a concrete charged payload into the
empty database leave one `pay_1` row and the same (active) status as after
one delivery. -/
theorem C2_witness :
    paymentCount (deliverN hexConst cfg0
      (RawBody.valid [7] (chargedPayload "a@x.com" "pay_1" "sub_1" "standard" "+1" 19900))
      "aa" tconst dbE 2) "pay_1" = 1
    ∧ statusOf (deliverN hexConst cfg0
        (RawBody.valid [7] (chargedPayload "a@x.com" "pay_1" "sub_1" "standard" "+1" 19900))
        "aa" tconst dbE 2) "a@x.com"
      = statusOf (deliverN hexConst cfg0
          (RawBody.valid [7] (chargedPayload "a@x.com" "pay_1" "sub_1" "standard" "+1" 19900))
          "aa" tconst dbE 1) "a@x.com" :=
  C2_charged_idempotent hexConst cfg0 dbE [7] "aa" tconst "a@x.com" "pay_1" "sub_1"
    "standard" "+1" 19900 2 rfl (by decide) (by decide) (by decide) (by decide)

end AlphaDominico
